import Mathlib

/-
Shallow embedding of the appointment scheduling core of the Hopefull
telehealth platform: AppointmentsService (src/unnamed/part_005, with the
behaviourally matching variant src/apps/api/src/appointments/appointments.service.ts)
and TherapistsService.getAvailableSlots (src/unnamed/part_008).

Machine representation choices: record ids are Nat; timestamps are Int
milliseconds since the Unix epoch (mirroring Date.getTime()); the float
arithmetic of the refund computation is modelled over ℚ, which agrees with
IEEE doubles on every integral-millisecond input relevant here; the Prisma
store is a record of lists, findUnique/findFirst are List.find?, and
update-by-id maps the updating function over the matching row.
-/

namespace Hopefull

/-- Appointment lifecycle states, from the shared types package
(packages/types/src/index.ts line 60). -/
inductive AppointmentStatus
  | PENDING
  | CONFIRMED
  | COMPLETED
  | CANCELLED
  | NO_SHOW
deriving DecidableEq, Repr

/-- Appointment type, SCHEDULED or INSTANT. -/
inductive AppointmentType
  | SCHEDULED
  | INSTANT
deriving DecidableEq, Repr

/-- The appointment record, with the columns the appointment service reads
and writes. -/
structure Appointment where
  id : Nat
  userId : Nat
  therapistId : Nat
  scheduledAt : Int
  duration : Nat
  timezone : String
  type : AppointmentType
  bookingNotes : Option String
  amount : Int
  status : AppointmentStatus
  sessionNotes : Option String
  cancellationReason : Option String
  confirmedAt : Option Int
  cancelledAt : Option Int
  completedAt : Option Int
deriving DecidableEq, Repr

/-- The therapist record: userId is the id of the owning user account
(appointment.therapist.user.id in the source), plus the derived aggregate
stats maintained by review aggregation. -/
structure Therapist where
  id : Nat
  userId : Nat
  averageRating : ℚ
  totalReviews : Nat
deriving DecidableEq, Repr

/-- A patient's post-session review of a therapist. -/
structure Review where
  id : Nat
  userId : Nat
  therapistId : Nat
  appointmentId : Nat
  rating : Nat
  feedback : Option String
  tags : List String
  isAnonymous : Bool
deriving DecidableEq, Repr

/-- A therapist's recurring weekly availability window. -/
structure AvailabilityWindow where
  therapistId : Nat
  dayOfWeek : Nat
  startTime : String
  endTime : String
  isActive : Bool
deriving DecidableEq, Repr

/-- A one-off blocked slot exception declared by the therapist. -/
structure BlockedSlot where
  therapistId : Nat
  startAt : Int
  endAt : Int
deriving DecidableEq, Repr

/-- The relational store as seen by the services. -/
structure DB where
  therapists : List Therapist
  appointments : List Appointment
  reviews : List Review
  availabilities : List AvailabilityWindow
  blockedSlots : List BlockedSlot
deriving DecidableEq, Repr

/-- The NestJS exceptions thrown by the services, plus the storage-level
uniqueness violation surfaced on a duplicate review. -/
inductive ApiError
  | notFound (msg : String)
  | badRequest (msg : String)
  | forbidden (msg : String)
  | conflict (msg : String)
deriving DecidableEq, Repr

/-- Result of a mutating service operation: the thrown error or returned
record, paired with the store after the operation. -/
abbrev OpResult := Except ApiError Appointment × DB

/-- Prisma appointment.findUnique by id. -/
def findAppt (db : DB) (id : Nat) : Option Appointment :=
  db.appointments.find? (fun a => a.id == id)

/-- Prisma therapist.findUnique by id. -/
def findTherapist (db : DB) (id : Nat) : Option Therapist :=
  db.therapists.find? (fun t => t.id == id)

/-- Prisma appointment.update where id: applies the column updates to the
matching row. -/
def updateAppointment (db : DB) (id : Nat) (f : Appointment → Appointment) : DB :=
  { db with appointments := db.appointments.map (fun a => if a.id == id then f a else a) }

/-- Prisma therapist.update where id. -/
def updateTherapist (db : DB) (id : Nat) (f : Therapist → Therapist) : DB :=
  { db with therapists := db.therapists.map (fun t => if t.id == id then f t else t) }

/-- Modelled from the spec: the NotificationsService send methods
(sendBookingRequest, sendBookingConfirmation, sendBookingDeclined,
sendAppointmentCancelled), whose implementation file is not under src/.
Per §4.4/§7 of the spec, notification dispatch is best-effort: a transport
failure (the transportFails flag) is logged and suppressed inside the
sender, so the call never throws regardless of the transport outcome. -/
def sendNotification (_transportFails : Bool) (_recipientUserId : Nat)
    (_appointmentId : Nat) : Except ApiError Unit :=
  -- transport failure is logged and suppressed; the flag and arguments do
  -- not influence the returned value
  Except.ok ()

/-- Input to AppointmentsService.create (part_005 lines 18-27). -/
structure CreateInput where
  userId : Nat
  therapistId : Nat
  scheduledAt : Int
  duration : Nat
  timezone : String
  type : Option AppointmentType
  bookingNotes : Option String
  amount : Int
deriving DecidableEq, Repr

/-- AppointmentsService.create (part_005 lines 18-96): verify the therapist
exists, reject an exact-timestamp conflict with a PENDING or CONFIRMED
appointment of the same therapist, insert a PENDING appointment, then
notify the therapist of the booking request. newId is the id generated by
the store for the inserted row. -/
def create (db : DB) (transportFails : Bool) (newId : Nat) (d : CreateInput) : OpResult :=
  match findTherapist db d.therapistId with
  | none => (.error (.notFound "Therapist not found"), db)
  | some t =>
    match db.appointments.find? (fun a =>
        a.therapistId == d.therapistId && a.scheduledAt == d.scheduledAt &&
        (a.status == .PENDING || a.status == .CONFIRMED)) with
    | some _ => (.error (.badRequest "Time slot is not available"), db)
    | none =>
      let appt : Appointment :=
        { id := newId
          userId := d.userId
          therapistId := d.therapistId
          scheduledAt := d.scheduledAt
          duration := d.duration
          timezone := d.timezone
          type := d.type.getD .SCHEDULED
          bookingNotes := d.bookingNotes
          amount := d.amount
          status := .PENDING
          sessionNotes := none
          cancellationReason := none
          confirmedAt := none
          cancelledAt := none
          completedAt := none }
      let db1 := { db with appointments := db.appointments ++ [appt] }
      -- the await at the call site has no try..catch, so an error from the
      -- sender would propagate; the sender never produces one
      match sendNotification transportFails t.userId appt.id with
      | .error e => (.error e, db1)
      | .ok _ => (.ok appt, db1)

/-- AppointmentsService.confirm (part_005 lines 220-267): only the owning
therapist may confirm, only from PENDING; sets confirmedAt and notifies
the patient. -/
def confirm (db : DB) (transportFails : Bool) (id uid : Nat) (now : Int) : OpResult :=
  match findAppt db id with
  | none => (.error (.notFound "Appointment not found"), db)
  | some a =>
    match findTherapist db a.therapistId with
    -- dangling foreign key: unreachable under referential integrity
    | none => (.error (.notFound "Appointment not found"), db)
    | some t =>
      if t.userId ≠ uid then (.error (.forbidden "Not authorized"), db)
      else if a.status ≠ .PENDING then
        (.error (.badRequest "Appointment cannot be confirmed"), db)
      else
        let upd : Appointment → Appointment := fun b =>
          { b with status := .CONFIRMED, confirmedAt := some now }
        let db1 := updateAppointment db id upd
        match sendNotification transportFails a.userId a.id with
        | .error e => (.error e, db1)
        | .ok _ => (.ok (upd a), db1)

/-- AppointmentsService.decline (part_005 lines 269-316): only the owning
therapist, only from PENDING; records the reason (the source's
reason-or-default uses JS truthiness, so an empty string also falls back)
and notifies the patient of the declined booking. -/
def decline (db : DB) (transportFails : Bool) (id uid : Nat)
    (reason : Option String) (now : Int) : OpResult :=
  match findAppt db id with
  | none => (.error (.notFound "Appointment not found"), db)
  | some a =>
    match findTherapist db a.therapistId with
    -- dangling foreign key: unreachable under referential integrity
    | none => (.error (.notFound "Appointment not found"), db)
    | some t =>
      if t.userId ≠ uid then (.error (.forbidden "Not authorized"), db)
      else if a.status ≠ .PENDING then
        (.error (.badRequest "Only pending appointments can be declined"), db)
      else
        let recordedReason :=
          match reason with
          | some r => if r = "" then "Declined by therapist" else r
          | none => "Declined by therapist"
        let upd : Appointment → Appointment := fun b =>
          { b with status := .CANCELLED
                   cancellationReason := some recordedReason
                   cancelledAt := some now }
        let db1 := updateAppointment db id upd
        match sendNotification transportFails a.userId a.id with
        | .error e => (.error e, db1)
        | .ok _ => (.ok (upd a), db1)

/-- The local hoursUntilAppointment computation of cancel:
(scheduledAt.getTime() - Date.now()) / (1000 * 60 * 60). -/
def hoursUntil (scheduledAt now : Int) : ℚ :=
  ((scheduledAt - now : Int) : ℚ) / (1000 * 60 * 60)

/-- The refund tier computation inside cancel (part_005 lines 364-370):
100 when strictly more than 24 hours remain, 50 when strictly more than 2
hours remain, otherwise 0. -/
def refundPercentage (hoursUntilAppointment : ℚ) : Nat :=
  if hoursUntilAppointment > 24 then 100
  else if hoursUntilAppointment > 2 then 50
  else 0

/-- AppointmentsService.cancel (part_005 lines 318-407): the patient (or,
with isTherapist, the owning therapist) cancels; COMPLETED and CANCELLED
are rejected; the refund percentage is computed into a local that the
source never reads again; the record moves to CANCELLED and the other
party is notified. -/
def cancel (db : DB) (transportFails : Bool) (id uid : Nat) (reason : String)
    (isTherapist : Bool) (now : Int) : OpResult :=
  match findAppt db id with
  | none => (.error (.notFound "Appointment not found"), db)
  | some a =>
    match findTherapist db a.therapistId with
    -- dangling foreign key: unreachable under referential integrity
    | none => (.error (.notFound "Appointment not found"), db)
    | some t =>
      if ¬ isTherapist ∧ a.userId ≠ uid then (.error (.forbidden "Not authorized"), db)
      else if isTherapist ∧ t.userId ≠ uid then (.error (.forbidden "Not authorized"), db)
      else if a.status = .COMPLETED ∨ a.status = .CANCELLED then
        (.error (.badRequest "Appointment cannot be cancelled"), db)
      else
        -- computed exactly as in the source and, exactly as in the source,
        -- never used afterwards
        let _refundPercentage := refundPercentage (hoursUntil a.scheduledAt now)
        let upd : Appointment → Appointment := fun b =>
          { b with status := .CANCELLED
                   cancellationReason := some reason
                   cancelledAt := some now }
        let db1 := updateAppointment db id upd
        let recipient := if isTherapist then a.userId else t.userId
        match sendNotification transportFails recipient a.id with
        | .error e => (.error e, db1)
        | .ok _ => (.ok (upd a), db1)

/-- AppointmentsService.complete (part_005 lines 409-437): checks only that
the appointment exists and that the actor is the owning therapist — there
is no check of the current status; sets COMPLETED and completedAt, and
updates sessionNotes when given (an absent value leaves the column alone,
Prisma skipping undefined fields). No notification is dispatched. -/
def complete (db : DB) (id uid : Nat) (sessionNotes : Option String)
    (now : Int) : OpResult :=
  match findAppt db id with
  | none => (.error (.notFound "Appointment not found"), db)
  | some a =>
    match findTherapist db a.therapistId with
    -- dangling foreign key: unreachable under referential integrity
    | none => (.error (.notFound "Appointment not found"), db)
    | some t =>
      if t.userId ≠ uid then (.error (.forbidden "Not authorized"), db)
      else
        let upd : Appointment → Appointment := fun b =>
          { b with status := .COMPLETED
                   completedAt := some now
                   sessionNotes :=
                     match sessionNotes with
                     | some s => some s
                     | none => b.sessionNotes }
        (.ok (upd a), updateAppointment db id upd)

/-- Input payload to addReview. -/
structure ReviewInput where
  rating : Nat
  feedback : Option String
  tags : Option (List String)
  isAnonymous : Option Bool
deriving DecidableEq, Repr

/-- The review row inserted by addReview (part_005 lines 466-476). -/
def newReview (appointmentId uid newReviewId : Nat) (d : ReviewInput)
    (therapistId : Nat) : Review :=
  { id := newReviewId, userId := uid, therapistId := therapistId,
    appointmentId := appointmentId, rating := d.rating, feedback := d.feedback,
    tags := d.tags.getD [], isAnonymous := d.isAnonymous.getD false }

/-- The ratings aggregated by review.aggregate where therapistId
(part_005 lines 479-483): the ratings of all of the therapist's reviews. -/
def therapistRatings (reviews : List Review) (therapistId : Nat) : List Nat :=
  (reviews.filter (fun r => r.therapistId == therapistId)).map (fun r => r.rating)

/-- AppointmentsService.addReview (part_005 lines 439-494): only the
session's patient may review, only a COMPLETED appointment; the review row
is inserted and then averageRating and totalReviews are recomputed from
all of the therapist's reviews. The duplicate check is modelled from the
spec: the one-review-per-appointment uniqueness constraint lives in the
Prisma schema, which is not under src/; per §4.5 a duplicate insert fails
with Conflict before any row is written. -/
def addReview (db : DB) (appointmentId uid : Nat) (d : ReviewInput)
    (newReviewId : Nat) : Except ApiError Review × DB :=
  match findAppt db appointmentId with
  | none => (.error (.notFound "Appointment not found"), db)
  | some a =>
    if a.userId ≠ uid then (.error (.forbidden "Not authorized"), db)
    else if a.status ≠ .COMPLETED then
      (.error (.badRequest "Can only review completed appointments"), db)
    else if db.reviews.any (fun r => r.appointmentId == appointmentId) then
      (.error (.conflict "Review already exists for this appointment"), db)
    else
      let review : Review := newReview appointmentId uid newReviewId d a.therapistId
      let db1 := { db with reviews := db.reviews ++ [review] }
      -- review.aggregate over the therapist's reviews: _avg.rating and _count
      let rs : List Nat := therapistRatings db1.reviews a.therapistId
      let avg : ℚ := if rs.length = 0 then 0 else (rs.sum : ℚ) / (rs.length : ℚ)
      let db2 := updateTherapist db1 a.therapistId (fun t =>
        { t with averageRating := avg, totalReviews := rs.length })
      (.ok review, db2)

/-- Day of week of an epoch day, with 0 = Sunday as in JS Date.getDay()
(1970-01-01 was a Thursday). -/
def dayOfWeekOf (epochDay : Nat) : Nat := (epochDay + 4) % 7

/-- Milliseconds in a day. -/
def msPerDay : Int := 86400000

/-- The startTime/endTime pair returned in the slots list. -/
structure SlotPair where
  startTime : String
  endTime : String
deriving DecidableEq, Repr

/-- An entry of the bookedSlots list: the raw scheduledAt and duration. -/
structure BookedSlot where
  time : Int
  duration : Nat
deriving DecidableEq, Repr

/-- Return value of getAvailableSlots. -/
structure AvailableSlotsResult where
  date : Nat
  slots : List SlotPair
  bookedSlots : List BookedSlot
deriving DecidableEq, Repr

/-- TherapistsService.getAvailableSlots (part_008 lines 135-175): loads the
therapist with active availability windows, blocked slots, and same-day
PENDING/CONFIRMED appointments; returns as slots every active window whose
dayOfWeek matches the date, and the matching appointments as a separate
bookedSlots list. The loaded blocked slots are not consulted, and no
subtraction of booked or blocked times from the windows happens here. The
operation writes nothing: it returns no store. -/
def getAvailableSlots (db : DB) (therapistId : Nat) (date : Nat) :
    Except ApiError AvailableSlotsResult :=
  match findTherapist db therapistId with
  | none => .error (.notFound "Therapist not found")
  | some _ =>
    -- included relations, filtered as in the Prisma query
    let _loadedBlockedSlots := db.blockedSlots.filter
      (fun b => b.therapistId == therapistId)
    let sameDayAppts := db.appointments.filter (fun a =>
      a.therapistId == therapistId &&
      decide ((date : Int) * msPerDay ≤ a.scheduledAt) &&
      decide (a.scheduledAt < ((date : Int) + 1) * msPerDay) &&
      (a.status == .PENDING || a.status == .CONFIRMED))
    let dayAvailability := db.availabilities.filter (fun w =>
      w.therapistId == therapistId && w.isActive &&
      w.dayOfWeek == dayOfWeekOf date)
    .ok { date := date
          slots := dayAvailability.map (fun w =>
            { startTime := w.startTime, endTime := w.endTime })
          bookedSlots := sameDayAppts.map (fun a =>
            { time := a.scheduledAt, duration := a.duration }) }

/- Concrete records used by counterexamples and witnesses. -/

/-- Example therapist: record id 1, owned by user account 10. -/
def exTherapist : Therapist :=
  { id := 1, userId := 10, averageRating := 0, totalReviews := 0 }

/-- Example appointment id 5 of patient 20 with therapist 1, scheduled at
108000000 ms (30 hours after t = 0), parametrised by its status. -/
def exAppt (st : AppointmentStatus) : Appointment :=
  { id := 5, userId := 20, therapistId := 1, scheduledAt := 108000000,
    duration := 60, timezone := "UTC", type := .SCHEDULED, bookingNotes := none,
    amount := 5000, status := st, sessionNotes := none,
    cancellationReason := none, confirmedAt := none, cancelledAt := none,
    completedAt := none }

/-- Example store holding exTherapist and one exAppt. -/
def exDB (st : AppointmentStatus) : DB :=
  { therapists := [exTherapist], appointments := [exAppt st], reviews := [],
    availabilities := [], blockedSlots := [] }

/-- Recurring window of therapist 1: Thursdays (dayOfWeek 4), 09:00-10:00. -/
def exWindow : AvailabilityWindow :=
  { therapistId := 1, dayOfWeek := 4, startTime := "09:00", endTime := "10:00",
    isActive := true }

/-- Blocked slot of therapist 1 covering 09:00-10:00 of epoch day 0. -/
def exBlocked : BlockedSlot :=
  { therapistId := 1, startAt := 32400000, endAt := 36000000 }

/-- Store for the availability counterexample: the Thursday window, a
blocked slot covering it on epoch day 0 (a Thursday), and a PENDING
appointment at exactly the window's start instant. -/
def exDB6 : DB :=
  { therapists := [exTherapist],
    appointments := [{ exAppt .PENDING with scheduledAt := 32400000 }],
    reviews := [], availabilities := [exWindow], blockedSlots := [exBlocked] }

/-- Example review by patient 20 of therapist 1. -/
def exReview (i appt rating : Nat) : Review :=
  { id := i, userId := 20, therapistId := 1, appointmentId := appt,
    rating := rating, feedback := none, tags := [], isAnonymous := false }

/-- Review input carrying just a rating. -/
def exReviewInput (rating : Nat) : ReviewInput :=
  { rating := rating, feedback := none, tags := none, isAnonymous := none }

/-- Store for the aggregate-stats example: therapist 1 already has reviews
rated [5, 3, 4] (appointments 101, 102, 103) and a COMPLETED appointment
104 not yet reviewed. -/
def exDB9 : DB :=
  { therapists := [exTherapist],
    appointments := [{ exAppt .COMPLETED with id := 104 }],
    reviews := [exReview 1 101 5, exReview 2 102 3, exReview 3 103 4],
    availabilities := [], blockedSlots := [] }

/-- Store for the duplicate-review example: appointment 104 is COMPLETED
and already reviewed. -/
def exDB7 : DB :=
  { therapists := [exTherapist],
    appointments := [{ exAppt .COMPLETED with id := 104 }],
    reviews := [exReview 1 104 5],
    availabilities := [], blockedSlots := [] }

/-- At most one review per appointment: any two reviews of the list that
share an appointmentId are the same review. -/
def uniquePerAppointment (rs : List Review) : Prop :=
  ∀ r1 ∈ rs, ∀ r2 ∈ rs, r1.appointmentId = r2.appointmentId → r1 = r2

/-- Booking input of patient 21 for therapist 1 at the 108000000 ms
instant. -/
def exCreateInput : CreateInput :=
  { userId := 21, therapistId := 1, scheduledAt := 108000000, duration := 60,
    timezone := "UTC", type := none, bookingNotes := none, amount := 5000 }

/-- The example appointment after the therapist confirms it at t = 3. -/
def exConfirmed : Appointment :=
  { (exAppt .PENDING) with status := .CONFIRMED, confirmedAt := some 3 }

/-- The example store after that confirmation. -/
def exDB10 : DB :=
  updateAppointment (exDB .PENDING) 5 (fun b =>
    { b with status := .CONFIRMED, confirmedAt := some 3 })

/- Helper lemmas shared across the claim theorems. -/

/-- Comparing the hours-until computation with 24 is comparing the
millisecond difference with 86400000. -/
lemma hoursUntil_gt_24_iff (s n : Int) : 24 < hoursUntil s n ↔ 86400000 < s - n := by
  unfold hoursUntil
  rw [lt_div_iff₀ (by norm_num : (0:ℚ) < 1000 * 60 * 60)]
  have h : (24 : ℚ) * (1000 * 60 * 60) = ((86400000 : Int) : ℚ) := by norm_num
  rw [h, Int.cast_lt]

/-- Comparing the hours-until computation with 2 is comparing the
millisecond difference with 7200000. -/
lemma hoursUntil_gt_2_iff (s n : Int) : 2 < hoursUntil s n ↔ 7200000 < s - n := by
  unfold hoursUntil
  rw [lt_div_iff₀ (by norm_num : (0:ℚ) < 1000 * 60 * 60)]
  have h : (2 : ℚ) * (1000 * 60 * 60) = ((7200000 : Int) : ℚ) := by norm_num
  rw [h, Int.cast_lt]

/-- C3: the refund percentage computed at cancellation is a pure function
of scheduledAt − now; strictly more than 24 hours (86400000 ms) before the
scheduled start yields 100, at most 24 hours but strictly more than 2
hours (7200000 ms) yields 50, and 2 hours or less yields 0. -/
theorem c3_refund_tiers (scheduledAt now : Int) :
    (∀ s n : Int, s - n = scheduledAt - now →
      refundPercentage (hoursUntil s n) = refundPercentage (hoursUntil scheduledAt now)) ∧
    (86400000 < scheduledAt - now →
      refundPercentage (hoursUntil scheduledAt now) = 100) ∧
    (7200000 < scheduledAt - now → scheduledAt - now ≤ 86400000 →
      refundPercentage (hoursUntil scheduledAt now) = 50) ∧
    (scheduledAt - now ≤ 7200000 →
      refundPercentage (hoursUntil scheduledAt now) = 0) := by
  refine ⟨?_, ?_, ?_, ?_⟩
  · intro s n h
    unfold refundPercentage hoursUntil
    rw [h]
  · intro h
    unfold refundPercentage
    rw [if_pos ((hoursUntil_gt_24_iff scheduledAt now).mpr h)]
  · intro h1 h2
    unfold refundPercentage
    rw [if_neg (fun hc => absurd ((hoursUntil_gt_24_iff scheduledAt now).mp hc)
      (not_lt.mpr h2))]
    rw [if_pos ((hoursUntil_gt_2_iff scheduledAt now).mpr h1)]
  · intro h
    unfold refundPercentage
    rw [if_neg (fun hc => absurd ((hoursUntil_gt_24_iff scheduledAt now).mp hc)
      (by omega)), if_neg (fun hc => absurd ((hoursUntil_gt_2_iff scheduledAt now).mp hc)
      (not_lt.mpr h))]

/-- Witness for c3_refund_tiers: cancelling exactly 24 hours before the
start yields 50, exactly 2 hours before yields 0, and 25 hours before
yields 100. -/
theorem c3_witness :
    refundPercentage (hoursUntil 86400000 0) = 50 ∧
    refundPercentage (hoursUntil 7200000 0) = 0 ∧
    refundPercentage (hoursUntil 90000000 0) = 100 :=
  ⟨(c3_refund_tiers 86400000 0).2.2.1 (by decide) (by decide),
   (c3_refund_tiers 7200000 0).2.2.2 (by decide),
   (c3_refund_tiers 90000000 0).2.1 (by decide)⟩

/-- C4 (code bug): a patient cancelling the PENDING appointment 30 hours
before the scheduled start succeeds, but the returned value is only the
updated appointment record together with the updated store — the refund
tier computation (whose value here is 100) is evaluated into a local the
source never reads, and nothing returned carries a refund percentage. -/
theorem c4_refund_discarded :
    cancel (exDB .PENDING) false 5 20 "schedule conflict" false 0 =
      (.ok { (exAppt .PENDING) with
               status := .CANCELLED,
               cancellationReason := some "schedule conflict",
               cancelledAt := some 0 },
       { (exDB .PENDING) with
           appointments := [{ (exAppt .PENDING) with
             status := .CANCELLED,
             cancellationReason := some "schedule conflict",
             cancelledAt := some 0 }] }) ∧
    refundPercentage (hoursUntil 108000000 0) = 100 :=
  ⟨rfl, by
    unfold refundPercentage
    rw [if_pos ((hoursUntil_gt_24_iff 108000000 0).mpr (by decide))]⟩

/-- C6 (code bug): on epoch day 0 (a Thursday) the 09:00-10:00 Thursday
window of therapist 1 is returned in slots even though a blocked slot
covers it and a PENDING appointment occupies its exact start instant; the
occupied slot is merely echoed in the separate bookedSlots list and the
blocked slot is ignored entirely. -/
theorem c6_blocked_slots_ignored :
    getAvailableSlots exDB6 1 0 =
      .ok { date := 0,
            slots := [{ startTime := "09:00", endTime := "10:00" }],
            bookedSlots := [{ time := 32400000, duration := 60 }] } := rfl

/-- C1 (counterexample): the claim that every transition attempted from a
terminal status fails is false — completing an already-CANCELLED
appointment succeeds and mutates the record, and cancelling a NO_SHOW
appointment succeeds as well. -/
theorem c1_counterexample :
    (exAppt .CANCELLED).status = .CANCELLED ∧
    complete (exDB .CANCELLED) 5 10 none 99 =
      (.ok { (exAppt .CANCELLED) with
               status := .COMPLETED,
               completedAt := some 99 },
       { (exDB .CANCELLED) with
           appointments := [{ (exAppt .CANCELLED) with
             status := .COMPLETED,
             completedAt := some 99 }] }) ∧
    (exAppt .NO_SHOW).status = .NO_SHOW ∧
    cancel (exDB .NO_SHOW) false 5 20 "changed plans" false 0 =
      (.ok { (exAppt .NO_SHOW) with
               status := .CANCELLED,
               cancellationReason := some "changed plans",
               cancelledAt := some 0 },
       { (exDB .NO_SHOW) with
           appointments := [{ (exAppt .NO_SHOW) with
             status := .CANCELLED,
             cancellationReason := some "changed plans",
             cancelledAt := some 0 }] }) :=
  ⟨rfl, rfl, rfl, rfl⟩

/-- C1 (amended): from a terminal status, confirm and decline always fail
(they require PENDING) and leave the store unchanged; cancel fails and
leaves the store unchanged from COMPLETED or CANCELLED but is not blocked
from NO_SHOW (the owning patient's cancel succeeds there); complete
performs no status check, so the owning therapist's complete succeeds from
any terminal status. -/
theorem c1_amended_terminal_transitions (db : DB) (tf : Bool) (id uid : Nat)
    (reason : String) (declineReason : Option String) (notes : Option String)
    (isTherapist : Bool) (now : Int)
    (a : Appointment) (t : Therapist)
    (ha : findAppt db id = some a)
    (ht : findTherapist db a.therapistId = some t)
    (hterm : a.status = .COMPLETED ∨ a.status = .CANCELLED ∨ a.status = .NO_SHOW) :
    (∃ e, confirm db tf id uid now = (.error e, db)) ∧
    (∃ e, decline db tf id uid declineReason now = (.error e, db)) ∧
    (a.status = .COMPLETED ∨ a.status = .CANCELLED →
      ∃ e, cancel db tf id uid reason isTherapist now = (.error e, db)) ∧
    (a.status = .NO_SHOW → a.userId = uid →
      ∃ a2, (cancel db tf id uid reason false now).1 = .ok a2 ∧
        a2.status = .CANCELLED) ∧
    (t.userId = uid →
      ∃ a2, (complete db id uid notes now).1 = .ok a2 ∧
        a2.status = .COMPLETED) := by
  have hnp : a.status ≠ .PENDING := by
    rcases hterm with h | h | h <;> simp [h]
  refine ⟨?_, ?_, ?_, ?_, ?_⟩
  · by_cases h : t.userId = uid
    · exact ⟨.badRequest "Appointment cannot be confirmed",
        by simp [confirm, ha, ht, h, hnp]⟩
    · exact ⟨.forbidden "Not authorized", by simp [confirm, ha, ht, h]⟩
  · by_cases h : t.userId = uid
    · exact ⟨.badRequest "Only pending appointments can be declined",
        by simp [decline, ha, ht, h, hnp]⟩
    · exact ⟨.forbidden "Not authorized", by simp [decline, ha, ht, h]⟩
  · intro hcc
    cases isTherapist with
    | false =>
      by_cases h : a.userId = uid
      · exact ⟨.badRequest "Appointment cannot be cancelled",
          by rcases hcc with h2 | h2 <;> simp [cancel, ha, ht, h, h2]⟩
      · exact ⟨.forbidden "Not authorized", by simp [cancel, ha, ht, h]⟩
    | true =>
      by_cases h : t.userId = uid
      · exact ⟨.badRequest "Appointment cannot be cancelled",
          by rcases hcc with h2 | h2 <;> simp [cancel, ha, ht, h, h2]⟩
      · exact ⟨.forbidden "Not authorized", by simp [cancel, ha, ht, h]⟩
  · intro hns hu
    refine ⟨{ a with
                status := .CANCELLED,
                cancellationReason := some reason,
                cancelledAt := some now }, ?_, rfl⟩
    simp [cancel, ha, ht, hu, hns, sendNotification]
  · intro hu
    refine ⟨{ a with
                status := .COMPLETED,
                completedAt := some now,
                sessionNotes := match notes with
                  | some s => some s
                  | none => a.sessionNotes }, ?_, rfl⟩
    simp [complete, ha, ht, hu]

/-- Witness for c1_amended_terminal_transitions at the COMPLETED store:
confirm, decline, the patient's cancel and the therapist's cancel all fail
and leave the store unchanged, while the therapist's complete still
succeeds. -/
theorem c1_witness :
    (∃ e, confirm (exDB .COMPLETED) false 5 10 0 = (.error e, exDB .COMPLETED)) ∧
    (∃ e, decline (exDB .COMPLETED) false 5 10 (some "late") 0 =
      (.error e, exDB .COMPLETED)) ∧
    (∃ e, cancel (exDB .COMPLETED) false 5 20 "reason" false 0 =
      (.error e, exDB .COMPLETED)) ∧
    (∃ e, cancel (exDB .COMPLETED) false 5 10 "reason" true 0 =
      (.error e, exDB .COMPLETED)) ∧
    (∃ a2, (complete (exDB .COMPLETED) 5 10 none 0).1 = .ok a2 ∧
      a2.status = .COMPLETED) :=
  let hp := c1_amended_terminal_transitions (exDB .COMPLETED) false 5 20 "reason"
    (some "late") none false 0 (exAppt .COMPLETED) exTherapist rfl rfl (Or.inl rfl)
  let hth := c1_amended_terminal_transitions (exDB .COMPLETED) false 5 10 "reason"
    (some "late") none true 0 (exAppt .COMPLETED) exTherapist rfl rfl (Or.inl rfl)
  ⟨hth.1, hth.2.1, hp.2.2.1 (Or.inl rfl), hth.2.2.1 (Or.inl rfl),
   hth.2.2.2.2 rfl⟩

/-- C2 (counterexample): completing a PENDING appointment does not fail
with an invalid-state error — it succeeds and marks the appointment
COMPLETED, contradicting the status == CONFIRMED precondition of the
claim. -/
theorem c2_counterexample :
    (exAppt .PENDING).status = .PENDING ∧
    complete (exDB .PENDING) 5 10 (some "notes") 99 =
      (.ok { (exAppt .PENDING) with
               status := .COMPLETED,
               completedAt := some 99,
               sessionNotes := some "notes" },
       { (exDB .PENDING) with
           appointments := [{ (exAppt .PENDING) with
             status := .COMPLETED,
             completedAt := some 99,
             sessionNotes := some "notes" }] }) :=
  ⟨rfl, rfl⟩

/-- C2 (amended): complete succeeds whenever the appointment exists and
the actor is the owning therapist, with no check of the current status; on
success the status becomes COMPLETED, completedAt is set to the current
instant and the session notes are attached when given (an absent value
leaves the stored notes untouched); a non-therapist actor is rejected with
the store unchanged. -/
theorem c2_amended_complete_behavior (db : DB) (id uid : Nat)
    (notes : Option String) (now : Int) (a : Appointment) (t : Therapist)
    (ha : findAppt db id = some a)
    (ht : findTherapist db a.therapistId = some t) :
    (t.userId = uid →
      complete db id uid notes now =
        (.ok { a with
                 status := .COMPLETED,
                 completedAt := some now,
                 sessionNotes := match notes with
                   | some s => some s
                   | none => a.sessionNotes },
         updateAppointment db id (fun b =>
           { b with
               status := .COMPLETED,
               completedAt := some now,
               sessionNotes := match notes with
                 | some s => some s
                 | none => b.sessionNotes }))) ∧
    (t.userId ≠ uid →
      complete db id uid notes now = (.error (.forbidden "Not authorized"), db)) := by
  constructor
  · intro hu
    simp [complete, ha, ht, hu]
  · intro hu
    simp [complete, ha, ht, hu]

/-- Witness for c2_amended_complete_behavior: the owning therapist
completes the example appointment even though it is CANCELLED, and the
given session notes are attached. -/
theorem c2_witness :
    complete (exDB .CANCELLED) 5 10 (some "post-hoc notes") 7 =
      (.ok { (exAppt .CANCELLED) with
               status := .COMPLETED,
               completedAt := some 7,
               sessionNotes := some "post-hoc notes" },
       updateAppointment (exDB .CANCELLED) 5 (fun b =>
         { b with
             status := .COMPLETED,
             completedAt := some 7,
             sessionNotes := some "post-hoc notes" })) :=
  (c2_amended_complete_behavior (exDB .CANCELLED) 5 10 (some "post-hoc notes") 7
    (exAppt .CANCELLED) exTherapist rfl rfl).1 rfl

/-- C5: appointment creation fails with NotFound when the therapist id is
unknown; given the therapist exists, it fails with the slot-taken error
exactly when some appointment of the same therapist with status PENDING or
CONFIRMED has a scheduledAt equal to the requested start instant (so
terminal-status appointments at that instant never block, and appointments
at other start instants never conflict regardless of interval overlap);
otherwise a new PENDING appointment for that patient, therapist and
instant is appended to the store. -/
theorem c5_create_characterization (db : DB) (tf : Bool) (newId : Nat)
    (d : CreateInput) :
    (findTherapist db d.therapistId = none →
      create db tf newId d = (.error (.notFound "Therapist not found"), db)) ∧
    (∀ t, findTherapist db d.therapistId = some t →
      ((∃ a ∈ db.appointments, a.therapistId = d.therapistId ∧
          a.scheduledAt = d.scheduledAt ∧
          (a.status = .PENDING ∨ a.status = .CONFIRMED)) →
        create db tf newId d =
          (.error (.badRequest "Time slot is not available"), db)) ∧
      ((¬ ∃ a ∈ db.appointments, a.therapistId = d.therapistId ∧
          a.scheduledAt = d.scheduledAt ∧
          (a.status = .PENDING ∨ a.status = .CONFIRMED)) →
        ∃ appt, create db tf newId d =
            (.ok appt, { db with appointments := db.appointments ++ [appt] }) ∧
          appt.status = .PENDING ∧ appt.therapistId = d.therapistId ∧
          appt.scheduledAt = d.scheduledAt ∧ appt.userId = d.userId)) := by
  constructor
  · intro hnone
    simp [create, hnone]
  · intro t ht
    constructor
    · intro hconf
      obtain ⟨a, hmem, h1, h2, h3⟩ := hconf
      cases hfind : db.appointments.find? (fun a =>
          a.therapistId == d.therapistId && a.scheduledAt == d.scheduledAt &&
          (a.status == .PENDING || a.status == .CONFIRMED)) with
      | none =>
        exfalso
        have hp : (a.therapistId == d.therapistId && a.scheduledAt == d.scheduledAt &&
            (a.status == .PENDING || a.status == .CONFIRMED)) = true := by
          rcases h3 with h3 | h3 <;> simp [h1, h2, h3]
        exact (List.find?_eq_none.mp hfind a hmem) hp
      | some c =>
        simp [create, ht, hfind]
    · intro hnoconf
      cases hfind : db.appointments.find? (fun a =>
          a.therapistId == d.therapistId && a.scheduledAt == d.scheduledAt &&
          (a.status == .PENDING || a.status == .CONFIRMED)) with
      | some c =>
        exfalso
        have hc := List.find?_some hfind
        have hmem := List.mem_of_find?_eq_some hfind
        simp only [Bool.and_eq_true, Bool.or_eq_true, beq_iff_eq] at hc
        exact hnoconf ⟨c, hmem, hc.1.1, hc.1.2, hc.2⟩
      | none =>
        refine ⟨{ id := newId, userId := d.userId, therapistId := d.therapistId,
                  scheduledAt := d.scheduledAt, duration := d.duration,
                  timezone := d.timezone, type := d.type.getD .SCHEDULED,
                  bookingNotes := d.bookingNotes, amount := d.amount,
                  status := .PENDING, sessionNotes := none,
                  cancellationReason := none, confirmedAt := none,
                  cancelledAt := none, completedAt := none }, ?_, rfl, rfl, rfl, rfl⟩
        simp [create, ht, hfind, sendNotification]

/-- Witness for c5_create_characterization: booking the exact instant of a
CANCELLED appointment succeeds — the terminal appointment does not block
the slot — and the created appointment is PENDING. -/
theorem c5_witness :
    ∃ appt, create (exDB .CANCELLED) false 6 exCreateInput =
        (.ok appt, { (exDB .CANCELLED) with
          appointments := (exDB .CANCELLED).appointments ++ [appt] }) ∧
      appt.status = .PENDING ∧ appt.therapistId = 1 ∧
      appt.scheduledAt = 108000000 ∧ appt.userId = 21 :=
  ((c5_create_characterization (exDB .CANCELLED) false 6 exCreateInput).2
    exTherapist rfl).2 (by decide)

/-- C8: the outcome of create, confirm, decline and cancel — both the
returned value and the resulting store — is identical whether or not the
notification transport fails: the modelled sender suppresses the failure,
so the committed state change stands and no notification error is ever the
operation's result. -/
theorem c8_notification_independence (db : DB) (newId id uid : Nat)
    (d : CreateInput) (declineReason : Option String) (reason : String)
    (now : Int) :
    create db true newId d = create db false newId d ∧
    confirm db true id uid now = confirm db false id uid now ∧
    decline db true id uid declineReason now =
      decline db false id uid declineReason now ∧
    cancel db true id uid reason false now =
      cancel db false id uid reason false now ∧
    cancel db true id uid reason true now =
      cancel db false id uid reason true now :=
  ⟨rfl, rfl, rfl, rfl, rfl⟩

/-- C10: every successful transition (confirm, decline, cancel, complete)
rewrites the found appointment by changing only the status, the matching
transition timestamp and the transition's own fields (cancellationReason,
sessionNotes); in particular amount, patient id, therapist id, scheduledAt
and duration are unchanged, and the store update touches only the matching
row through that same field update. -/
theorem c10_transition_frame (db : DB) (tf : Bool) (id uid : Nat)
    (reason : String) (declineReason : Option String) (notes : Option String)
    (now : Int) (isTherapist : Bool) :
    (∀ a2 db2, confirm db tf id uid now = (.ok a2, db2) →
      ∃ a, findAppt db id = some a ∧
        a2 = { a with status := .CONFIRMED, confirmedAt := some now } ∧
        db2 = updateAppointment db id (fun b =>
          { b with status := .CONFIRMED, confirmedAt := some now }) ∧
        a2.amount = a.amount ∧ a2.userId = a.userId ∧
        a2.therapistId = a.therapistId ∧ a2.scheduledAt = a.scheduledAt ∧
        a2.duration = a.duration) ∧
    (∀ a2 db2, decline db tf id uid declineReason now = (.ok a2, db2) →
      ∃ a rr, findAppt db id = some a ∧
        a2 = { a with
                 status := .CANCELLED,
                 cancellationReason := some rr,
                 cancelledAt := some now } ∧
        db2 = updateAppointment db id (fun b =>
          { b with
              status := .CANCELLED,
              cancellationReason := some rr,
              cancelledAt := some now }) ∧
        a2.amount = a.amount ∧ a2.userId = a.userId ∧
        a2.therapistId = a.therapistId ∧ a2.scheduledAt = a.scheduledAt ∧
        a2.duration = a.duration) ∧
    (∀ a2 db2, cancel db tf id uid reason isTherapist now = (.ok a2, db2) →
      ∃ a, findAppt db id = some a ∧
        a2 = { a with
                 status := .CANCELLED,
                 cancellationReason := some reason,
                 cancelledAt := some now } ∧
        db2 = updateAppointment db id (fun b =>
          { b with
              status := .CANCELLED,
              cancellationReason := some reason,
              cancelledAt := some now }) ∧
        a2.amount = a.amount ∧ a2.userId = a.userId ∧
        a2.therapistId = a.therapistId ∧ a2.scheduledAt = a.scheduledAt ∧
        a2.duration = a.duration) ∧
    (∀ a2 db2, complete db id uid notes now = (.ok a2, db2) →
      ∃ a, findAppt db id = some a ∧
        a2 = { a with
                 status := .COMPLETED,
                 completedAt := some now,
                 sessionNotes := match notes with
                   | some s => some s
                   | none => a.sessionNotes } ∧
        db2 = updateAppointment db id (fun b =>
          { b with
              status := .COMPLETED,
              completedAt := some now,
              sessionNotes := match notes with
                | some s => some s
                | none => b.sessionNotes }) ∧
        a2.amount = a.amount ∧ a2.userId = a.userId ∧
        a2.therapistId = a.therapistId ∧ a2.scheduledAt = a.scheduledAt ∧
        a2.duration = a.duration) := by
  refine ⟨?_, ?_, ?_, ?_⟩
  · intro a2 db2 h
    cases hfa : findAppt db id with
    | none => simp [confirm, hfa] at h
    | some a =>
      cases hft : findTherapist db a.therapistId with
      | none => simp [confirm, hfa, hft] at h
      | some t =>
        by_cases h1 : t.userId = uid
        · by_cases h2 : a.status = .PENDING
          · simp [confirm, hfa, hft, h1, h2, sendNotification] at h
            obtain ⟨hA, hD⟩ := h
            subst hA
            subst hD
            exact ⟨a, rfl, rfl, rfl, rfl, rfl, rfl, rfl, rfl⟩
          · simp [confirm, hfa, hft, h1, h2] at h
        · simp [confirm, hfa, hft, h1] at h
  · intro a2 db2 h
    cases hfa : findAppt db id with
    | none => simp [decline, hfa] at h
    | some a =>
      cases hft : findTherapist db a.therapistId with
      | none => simp [decline, hfa, hft] at h
      | some t =>
        by_cases h1 : t.userId = uid
        · by_cases h2 : a.status = .PENDING
          · simp [decline, hfa, hft, h1, h2, sendNotification] at h
            obtain ⟨hA, hD⟩ := h
            subst hA
            subst hD
            exact ⟨a, _, rfl, rfl, rfl, rfl, rfl, rfl, rfl, rfl⟩
          · simp [decline, hfa, hft, h1, h2] at h
        · simp [decline, hfa, hft, h1] at h
  · intro a2 db2 h
    cases hfa : findAppt db id with
    | none => simp [cancel, hfa] at h
    | some a =>
      cases hft : findTherapist db a.therapistId with
      | none => simp [cancel, hfa, hft] at h
      | some t =>
        cases isTherapist with
        | false =>
          by_cases hu : a.userId = uid
          · by_cases h3 : a.status = .COMPLETED ∨ a.status = .CANCELLED
            · simp [cancel, hfa, hft, hu, h3] at h
            · simp [cancel, hfa, hft, hu, h3, sendNotification] at h
              obtain ⟨hA, hD⟩ := h
              subst hA
              subst hD
              exact ⟨a, rfl, by rw [← hu], rfl, rfl, hu.symm, rfl, rfl, rfl⟩
          · simp [cancel, hfa, hft, hu] at h
        | true =>
          by_cases hu : t.userId = uid
          · by_cases h3 : a.status = .COMPLETED ∨ a.status = .CANCELLED
            · simp [cancel, hfa, hft, hu, h3] at h
            · simp [cancel, hfa, hft, hu, h3, sendNotification] at h
              obtain ⟨hA, hD⟩ := h
              subst hA
              subst hD
              exact ⟨a, rfl, rfl, rfl, rfl, rfl, rfl, rfl, rfl⟩
          · simp [cancel, hfa, hft, hu] at h
  · intro a2 db2 h
    cases hfa : findAppt db id with
    | none => simp [complete, hfa] at h
    | some a =>
      cases hft : findTherapist db a.therapistId with
      | none => simp [complete, hfa, hft] at h
      | some t =>
        by_cases h1 : t.userId = uid
        · simp [complete, hfa, hft, h1] at h
          obtain ⟨hA, hD⟩ := h
          subst hA
          subst hD
          exact ⟨a, rfl, rfl, rfl, rfl, rfl, rfl, rfl, rfl⟩
        · simp [complete, hfa, hft, h1] at h

/-- Witness for c10_transition_frame: the confirmation of the example
PENDING appointment changes exactly status and confirmedAt, preserving
amount, patient, therapist, scheduledAt and duration. -/
theorem c10_witness :
    ∃ a, findAppt (exDB .PENDING) 5 = some a ∧
      exConfirmed = { a with status := .CONFIRMED, confirmedAt := some 3 } ∧
      exDB10 = updateAppointment (exDB .PENDING) 5 (fun b =>
        { b with status := .CONFIRMED, confirmedAt := some 3 }) ∧
      exConfirmed.amount = a.amount ∧ exConfirmed.userId = a.userId ∧
      exConfirmed.therapistId = a.therapistId ∧
      exConfirmed.scheduledAt = a.scheduledAt ∧
      exConfirmed.duration = a.duration :=
  (c10_transition_frame (exDB .PENDING) false 5 10 "r" none none 3 false).1
    exConfirmed exDB10 rfl

/-- Appending a review whose appointmentId is fresh preserves the
one-review-per-appointment property. -/
lemma uniquePerAppointment_append (rs : List Review) (r0 : Review)
    (huniq : uniquePerAppointment rs)
    (hnew : ∀ r ∈ rs, r.appointmentId ≠ r0.appointmentId) :
    uniquePerAppointment (rs ++ [r0]) := by
  intro r1 h1 r2 h2 heq
  rcases List.mem_append.mp h1 with h1 | h1
  · rcases List.mem_append.mp h2 with h2 | h2
    · exact huniq r1 h1 r2 h2 heq
    · have e2 : r2 = r0 := by simpa using h2
      exact absurd (e2 ▸ heq) (hnew r1 h1)
  · have e1 : r1 = r0 := by simpa using h1
    rcases List.mem_append.mp h2 with h2 | h2
    · exact absurd (e1 ▸ heq).symm (hnew r2 h2)
    · have e2 : r2 = r0 := by simpa using h2
      rw [e1, e2]

/-- Updating the aggregate stats of the found therapist row leaves it
findable, now carrying the new stats. -/
lemma find?_therapists_update (l : List Therapist) (tid : Nat) (avg : ℚ)
    (cnt : Nat) (t : Therapist)
    (ht : l.find? (fun x => x.id == tid) = some t) :
    (l.map (fun x => if x.id == tid then
        { x with averageRating := avg, totalReviews := cnt } else x)).find?
      (fun x => x.id == tid) =
      some { t with averageRating := avg, totalReviews := cnt } := by
  induction l with
  | nil => simp at ht
  | cons hd tl ih =>
    by_cases hh : hd.id = tid
    · have ht2 : hd = t := by
      -- the head row is found, so it is the row the stats land on
        simp [hh] at ht
        exact ht
      subst ht2
      simp [hh]
    · simp [hh] at ht
      simp [hh, -List.find?_map]
      simpa using ih ht

/-- C7: once the COMPLETED example appointment has a review, a second
submission by the same patient fails with the uniqueness Conflict and
leaves the store — including the therapist's aggregate stats — entirely
unchanged; moreover every addReview call preserves the
at-most-one-review-per-appointment property of the store. -/
theorem c7_review_uniqueness :
    (∀ (db : DB) (aid uid : Nat) (d : ReviewInput) (rid : Nat) (a : Appointment),
      findAppt db aid = some a → a.userId = uid → a.status = .COMPLETED →
      (∃ r ∈ db.reviews, r.appointmentId = aid) →
      addReview db aid uid d rid =
        (.error (.conflict "Review already exists for this appointment"), db)) ∧
    (∀ (db : DB) (aid uid : Nat) (d : ReviewInput) (rid : Nat),
      uniquePerAppointment db.reviews →
      uniquePerAppointment (addReview db aid uid d rid).2.reviews) := by
  constructor
  · intro db aid uid d rid a ha hu hs hdup
    have hany : db.reviews.any (fun r => r.appointmentId == aid) = true := by
      obtain ⟨r, hmem, hr⟩ := hdup
      exact List.any_eq_true.mpr ⟨r, hmem, by simp [hr]⟩
    simp [addReview, ha, hu, hs, hany]
  · intro db aid uid d rid huniq
    cases hfa : findAppt db aid with
    | none => simpa [addReview, hfa] using huniq
    | some a =>
      by_cases hu : a.userId = uid
      · by_cases hs : a.status = .COMPLETED
        · cases hany : db.reviews.any (fun r => r.appointmentId == aid) with
          | true => simpa [addReview, hfa, hu, hs, hany] using huniq
          | false =>
            have hfresh : ∀ r ∈ db.reviews, r.appointmentId ≠ aid := by
              intro r hr
              have := List.any_eq_false.mp hany r hr
              simpa using this
            simp only [addReview, hfa, hu, hs, hany]
            simp [updateTherapist]
            exact uniquePerAppointment_append db.reviews _ huniq hfresh
        · simpa [addReview, hfa, hu, hs] using huniq
      · simpa [addReview, hfa, hu] using huniq

/-- Witness for c7_review_uniqueness: appointment 104 already has a
review, so the patient's second submission fails with Conflict and the
store is unchanged. -/
theorem c7_witness :
    addReview exDB7 104 20 (exReviewInput 4) 2 =
      (.error (.conflict "Review already exists for this appointment"), exDB7) :=
  c7_review_uniqueness.1 exDB7 104 20 (exReviewInput 4) 2
    { (exAppt .COMPLETED) with id := 104 } rfl rfl rfl (by decide)

/-- C9: a successful review submission returns the inserted review (whose
rating is the submitted one) and leaves the therapist row holding
totalReviews equal to the number of the therapist's reviews in the updated
store — the new review included — and averageRating equal to their
unweighted arithmetic mean, recomputed from all of those reviews. -/
theorem c9_average_recomputation (db : DB) (aid uid rid : Nat) (d : ReviewInput)
    (a : Appointment) (t : Therapist)
    (ha : findAppt db aid = some a) (hu : a.userId = uid)
    (hs : a.status = .COMPLETED)
    (hnodup : ∀ r ∈ db.reviews, r.appointmentId ≠ aid)
    (ht : findTherapist db a.therapistId = some t) :
    ∃ rs : List Nat,
      (addReview db aid uid d rid).1 =
        .ok (newReview aid uid rid d a.therapistId) ∧
      (newReview aid uid rid d a.therapistId).rating = d.rating ∧
      (newReview aid uid rid d a.therapistId).therapistId = a.therapistId ∧
      rs = therapistRatings ((addReview db aid uid d rid).2).reviews
        a.therapistId ∧
      rs.length ≠ 0 ∧
      findTherapist ((addReview db aid uid d rid).2) a.therapistId =
        some { t with
                 averageRating := (rs.sum : ℚ) / (rs.length : ℚ),
                 totalReviews := rs.length } := by
  have hany : db.reviews.any (fun r => r.appointmentId == aid) = false := by
    rw [List.any_eq_false]
    intro r hr
    simp [hnodup r hr]
  have hstep : addReview db aid uid d rid =
      (.ok (newReview aid uid rid d a.therapistId),
       updateTherapist
         { db with reviews :=
             db.reviews ++ [newReview aid uid rid d a.therapistId] }
         a.therapistId
         (fun x =>
           { x with
               averageRating :=
                 if (therapistRatings
                     (db.reviews ++ [newReview aid uid rid d a.therapistId])
                     a.therapistId).length = 0 then 0
                 else ((therapistRatings
                     (db.reviews ++ [newReview aid uid rid d a.therapistId])
                     a.therapistId).sum : ℚ) /
                   ((therapistRatings
                     (db.reviews ++ [newReview aid uid rid d a.therapistId])
                     a.therapistId).length : ℚ),
               totalReviews := (therapistRatings
                 (db.reviews ++ [newReview aid uid rid d a.therapistId])
                 a.therapistId).length })) := by
    simp [addReview, ha, hu, hs, hany]
  have hlen : (therapistRatings
      (db.reviews ++ [newReview aid uid rid d a.therapistId])
      a.therapistId).length ≠ 0 := by
    have hmem : (newReview aid uid rid d a.therapistId).rating ∈
        therapistRatings (db.reviews ++ [newReview aid uid rid d a.therapistId])
          a.therapistId := by
      unfold therapistRatings
      apply List.mem_map_of_mem
      apply List.mem_filter.mpr
      constructor
      · exact List.mem_append_right _ (by simp)
      · simp [newReview]
    intro h0
    rw [List.length_eq_zero] at h0
    rw [h0] at hmem
    simp at hmem
  refine ⟨therapistRatings
      (db.reviews ++ [newReview aid uid rid d a.therapistId]) a.therapistId,
    ?_, rfl, rfl, ?_, hlen, ?_⟩
  · rw [hstep]
  · rw [hstep]
    simp [updateTherapist]
  · rw [hstep]
    unfold findTherapist updateTherapist
    simp only [if_neg hlen]
    exact find?_therapists_update db.therapists a.therapistId _ _ t ht

/-- Witness for c9_average_recomputation: therapist 1 has reviews rated
[5, 3, 4]; after the patient adds a 1-star review of the COMPLETED
appointment 104, the stored stats are averageRating 13/4 = 3.25 and
totalReviews 4. -/
theorem c9_witness :
    (∃ rs : List Nat,
      (addReview exDB9 104 20 (exReviewInput 1) 4).1 =
        .ok (newReview 104 20 4 (exReviewInput 1) 1) ∧
      (newReview 104 20 4 (exReviewInput 1) 1).rating = (exReviewInput 1).rating ∧
      (newReview 104 20 4 (exReviewInput 1) 1).therapistId =
        ({ exAppt .COMPLETED with id := 104 } : Appointment).therapistId ∧
      rs = therapistRatings ((addReview exDB9 104 20 (exReviewInput 1) 4).2).reviews
        ({ exAppt .COMPLETED with id := 104 } : Appointment).therapistId ∧
      rs.length ≠ 0 ∧
      findTherapist ((addReview exDB9 104 20 (exReviewInput 1) 4).2)
          ({ exAppt .COMPLETED with id := 104 } : Appointment).therapistId =
        some { exTherapist with
                 averageRating := (rs.sum : ℚ) / (rs.length : ℚ),
                 totalReviews := rs.length }) ∧
    therapistRatings ((addReview exDB9 104 20 (exReviewInput 1) 4).2).reviews 1 =
      [5, 3, 4, 1] ∧
    findTherapist ((addReview exDB9 104 20 (exReviewInput 1) 4).2) 1 =
      some { exTherapist with averageRating := (13 : ℚ) / 4, totalReviews := 4 } :=
  ⟨c9_average_recomputation exDB9 104 20 4 (exReviewInput 1)
      { exAppt .COMPLETED with id := 104 } exTherapist rfl rfl rfl
      (by decide) rfl,
    rfl, rfl⟩

end Hopefull
